import Mathlib

/-!
Verification of the SaturationApp ingestion and metrics pipeline (app.py).

The program reads an uploaded CSV into a table, checks it has at least
3 columns, positionally rebinds the first three columns to the roles
Interview_Number / Concepts_Collected / New_Concepts, coerces these three
columns to numeric (non-coercible values become a missing marker), drops
rows with a missing value in any of the three bound columns, sorts by
Interview_Number, derives a cumulative sum of New_Concepts, and renders a
preview table, a two-series chart and four summary metrics.  All of this
runs inside one try/except whose handler renders an error message and a
usage hint.

Modelling conventions:
* A parsed CSV cell is `Cell`: a numeric value (exact rational), a
  non-numeric text, or a missing value (pandas NaN).  Numeric-looking
  strings are represented by `Cell.num` because `pd.read_csv` /
  `pd.to_numeric` parse them; `pd.to_numeric(errors='coerce')` is
  `Cell.toNumeric`.
* Float64 arithmetic is modelled by exact rationals.  Float-special
  values (NaN produced outside coercion, infinities, rounding of large
  values, and the one-decimal display formatting of the two averages)
  are outside the model; all claim-relevant inputs are small integers
  where float64 arithmetic is exact.
* Streamlit renders elements incrementally as the script executes, so
  the observable behaviour of the script body is the list of rendered
  elements, `List RenderItem`, including elements rendered before an
  exception is raised and the error/info elements appended by the
  `except` handler.
* `df.sort_values('Interview_Number')` is modelled by a comparison sort
  on the bound key.  The pandas call uses the default kind
  (`quicksort`), whose tie order the library does not specify; this
  model uses a stable insertion sort, which is adequate for every
  property proved here that does not depend on the order of rows with
  equal `Interview_Number`.
-/

namespace SaturationApp

/-- Cell of the parsed CSV table: a numeric value, a non-numeric text
value, or a missing value (pandas NaN). -/
inductive Cell where
  | num (q : ℚ)
  | text (s : String)
  | empty
  deriving DecidableEq, Repr

/-- Model of pd.to_numeric applied to one cell with errors='coerce'
(app.py lines 28-30): numeric values pass through, everything else
becomes the missing marker (`none`). -/
def Cell.toNumeric : Cell → Option ℚ
  | .num q => some q
  | .text _ => none
  | .empty => none

/-- Whether a cell holds a numeric value (a non-missing entry of a
numeric column). -/
def Cell.isNum : Cell → Bool
  | .num _ => true
  | .text _ => false
  | .empty => false

/-- Numeric value of a cell, 0 for non-numeric cells (only used on
cells already known to be numeric). -/
def Cell.numVal : Cell → ℚ
  | .num q => q
  | .text _ => 0
  | .empty => 0

/-- Cell `i` of a row; absent cells read as missing, matching pandas
NaN-filling of short rows. -/
def getCell (r : List Cell) (i : ℕ) : Cell := r.getD i Cell.empty

/-- The parsed CSV: the number of columns of the header and the data
rows (app.py line 18, `pd.read_csv`). -/
structure RawTable where
  ncols : ℕ
  rows : List (List Cell)
  deriving DecidableEq

/-- Writing the result of pd.to_numeric back into a cell: a coercible
value becomes its number, anything else becomes NaN (app.py lines
28-30). -/
def toNumericCell (c : Cell) : Cell :=
  match c.toNumeric with
  | some q => Cell.num q
  | none => Cell.empty

/-- Lines 25-30 of app.py on one row: the first three cells are
positionally bound to Interview_Number, Concepts_Collected,
New_Concepts and coerced to numeric; further cells are kept unbound and
untouched. -/
def coerceRowCells (r : List Cell) : List Cell :=
  [toNumericCell (getCell r 0), toNumericCell (getCell r 1), toNumericCell (getCell r 2)]
    ++ r.drop 3

/-- Lines 25-30 of app.py on the whole table. -/
def coerceTable (rows : List (List Cell)) : List (List Cell) :=
  rows.map coerceRowCells

/-- Row-retention test of df.dropna(subset=[the three bound columns])
(app.py line 33): all three bound cells are non-missing. -/
def keepRow (r : List Cell) : Bool :=
  (getCell r 0).isNum && (getCell r 1).isNum && (getCell r 2).isNum

/-- Line 33 of app.py: drop every row with a missing value in one of
the three bound columns. -/
def dropna (rows : List (List Cell)) : List (List Cell) :=
  rows.filter keepRow

/-- Whether a raw (pre-coercion) row will survive coercion plus dropna:
its first three cells all coerce to numbers. -/
def rowCoercible (r : List Cell) : Bool :=
  (getCell r 0).toNumeric.isSome && (getCell r 1).toNumeric.isSome
    && (getCell r 2).toNumeric.isSome

/-- A retained row after validation: the three numeric bound columns
plus the untouched unbound columns. -/
structure Row where
  interviewNumber : ℚ
  conceptsCollected : ℚ
  newConcepts : ℚ
  rest : List Cell
  deriving DecidableEq, Repr

/-- Reading a post-coercion, post-dropna row into its bound fields. -/
def toRow (r : List Cell) : Row :=
  ⟨(getCell r 0).numVal, (getCell r 1).numVal, (getCell r 2).numVal, r.drop 3⟩

/-- The rows that survive coercion and dropna (app.py lines 25-33). -/
def keptRows (t : RawTable) : List Row :=
  (dropna (coerceTable t.rows)).map toRow

/-- Comparison key of df.sort_values('Interview_Number') (app.py
line 36). -/
def rowLE (a b : Row) : Prop :=
  a.interviewNumber ≤ b.interviewNumber

/-- Strict version of the sort key order, used to show that a sorted
arrangement of rows with pairwise-distinct keys is unique. -/
def rowLT (a b : Row) : Prop :=
  a.interviewNumber < b.interviewNumber

instance : DecidableRel rowLE := fun a b =>
  inferInstanceAs (Decidable (a.interviewNumber ≤ b.interviewNumber))

instance : IsTotal Row rowLE :=
  ⟨fun a b => le_total a.interviewNumber b.interviewNumber⟩

instance : IsTrans Row rowLE :=
  ⟨fun _ _ _ h₁ h₂ => le_trans h₁ h₂⟩

instance : IsAntisymm Row rowLT :=
  ⟨fun _ _ h₁ h₂ => absurd h₂ (not_lt_of_le (le_of_lt h₁))⟩

/-- Line 36 of app.py: rows sorted ascending by Interview_Number. -/
def sortedRows (t : RawTable) : List Row :=
  List.insertionSort rowLE (keptRows t)

/-- Running sums of a list starting from an accumulator: the model of
pandas Series.cumsum (app.py line 39). -/
def cumsumAux (acc : ℚ) : List ℚ → List ℚ
  | [] => []
  | x :: xs => (acc + x) :: cumsumAux (acc + x) xs

/-- Series.cumsum: inclusive running sums, the first entry being the
first element itself (no implicit zero row). -/
def cumsum (l : List ℚ) : List ℚ :=
  cumsumAux 0 l

/-- The derived Cumulative_Unique_Concepts column (app.py line 39). -/
def cumulativeColumn (t : RawTable) : List ℚ :=
  cumsum ((sortedRows t).map Row.newConcepts)

/-- Python int() on a rational: truncation toward zero (app.py
line 108). -/
def truncInt (q : ℚ) : ℤ :=
  q.num.tdiv (q.den : ℤ)

/-- Arithmetic mean of a list of rationals (pandas Series.mean, app.py
lines 110 and 112); the empty case never feeds a rendered metric
because the statistics block is aborted earlier by iloc[-1]. -/
def listMean (l : List ℚ) : ℚ :=
  l.sum / (l.length : ℚ)

/-- The Total Unique Concepts statistic (app.py line 108):
int(df['Cumulative_Unique_Concepts'].iloc[-1]); `none` when the final
table has no rows, in which case iloc[-1] raises IndexError. -/
def totalUniqueConcepts (t : RawTable) : Option ℤ :=
  (cumulativeColumn t).getLast?.map truncInt

/-- Value shown by one st.metric call. -/
inductive MetricVal where
  | count (n : ℕ)
  | intVal (z : ℤ)
  | oneDec (q : ℚ)
  deriving DecidableEq, Repr

/-- One element rendered to the page by the script body: the preview
dataframe of the four displayed columns, the dual-axis chart (x values,
cumulative line series, per-interview bar series), a labelled metric,
an error message, or an info message. -/
inductive RenderItem where
  | dataframe (rows : List (ℚ × ℚ × ℚ × ℚ))
  | chart (x yA yB : List ℚ)
  | metric (label : String) (value : MetricVal)
  | error (msg : String)
  | info (msg : String)
  deriving DecidableEq, Repr

/-- Error text of the column-count check (app.py line 22). -/
def columnCountMsg : String :=
  "CSV file must have at least 3 columns: Interview Number, Concepts Collected, New Concepts"

/-- Text rendered by the except handler (app.py line 115). -/
def processingMsg (e : String) : String :=
  "Error processing file: " ++ e

/-- Message of the IndexError raised by iloc[-1] on an empty frame. -/
def indexErrorMsg : String :=
  "single positional indexer is out-of-bounds"

/-- Static usage hint rendered by the except handler (app.py
line 116). -/
def usageHint : String :=
  "Please ensure your CSV file has the correct format:\n- Column 1: Interview Number (integer)\n- Column 2: Concepts Collected (integer)\n- Column 3: New Concepts (integer)"

/-- Rows of the preview dataframe (app.py line 43): the three bound
columns plus the derived cumulative column. -/
def previewRows (l : List Row) (c : List ℚ) : List (ℚ × ℚ × ℚ × ℚ) :=
  List.zipWith (fun r cu => (r.interviewNumber, r.conceptsCollected, r.newConcepts, cu)) l c

/-- Lines 39-112 of app.py, applied to the sorted retained rows, as the
list of elements they render.  When at least one row remains,
iloc[-1] yields the last cumulative value and the four metrics are
rendered after the preview and the chart.  When no row remains, the
preview (empty), the chart (empty series) and the Total Interviews
metric have already been rendered when iloc[-1] raises IndexError, and
the except handler then renders the error and the usage hint. -/
def renderFromSorted (l : List Row) : List RenderItem :=
  match (cumsum (l.map Row.newConcepts)).getLast? with
  | some last =>
      [RenderItem.dataframe (previewRows l (cumsum (l.map Row.newConcepts))),
       RenderItem.chart (l.map Row.interviewNumber) (cumsum (l.map Row.newConcepts))
         (l.map Row.conceptsCollected),
       RenderItem.metric "Total Interviews" (MetricVal.count l.length),
       RenderItem.metric "Total Unique Concepts" (MetricVal.intVal (truncInt last)),
       RenderItem.metric "Avg Concepts/Interview"
         (MetricVal.oneDec (listMean (l.map Row.conceptsCollected))),
       RenderItem.metric "Avg New Concepts/Interview"
         (MetricVal.oneDec (listMean (l.map Row.newConcepts)))]
  | none =>
      [RenderItem.dataframe (previewRows l (cumsum (l.map Row.newConcepts))),
       RenderItem.chart (l.map Row.interviewNumber) (cumsum (l.map Row.newConcepts))
         (l.map Row.conceptsCollected),
       RenderItem.metric "Total Interviews" (MetricVal.count l.length),
       RenderItem.error (processingMsg indexErrorMsg),
       RenderItem.info usageHint]

/-- Lines 21-116 of app.py on a parsed table: the column-count gate,
then the validation/derivation pipeline and the rendered output. -/
def processTable (t : RawTable) : List RenderItem :=
  if t.ncols < 3 then
    [RenderItem.error columnCountMsg]
  else
    renderFromSorted (sortedRows t)

/-- Shorthand for a data row whose three bound cells are numeric. -/
def numRow (a b c : ℚ) : List Cell :=
  [Cell.num a, Cell.num b, Cell.num c]

/-- The example input of the spec: rows (1,10,10), (2,15,8), (3,12,5),
(4,18,10), (5,14,6). -/
def exampleTable : RawTable :=
  ⟨3, [numRow 1 10 10, numRow 2 15 8, numRow 3 12 5, numRow 4 18 10, numRow 5 14 6]⟩

/-- The example rows supplied in interview order 3, 1, 5, 2, 4. -/
def shuffledTable : RawTable :=
  ⟨3, [numRow 3 12 5, numRow 1 10 10, numRow 5 14 6, numRow 2 15 8, numRow 4 18 10]⟩

/-- A table with two columns only. -/
def twoColTable : RawTable :=
  ⟨2, [[Cell.num 1, Cell.num 2]]⟩

/-- A three-column table whose single row has non-numeric values in all
three bound columns, so that no row survives filtering. -/
def degenerateTable : RawTable :=
  ⟨3, [[Cell.text "a", Cell.text "b", Cell.text "c"]]⟩

/-- A table containing a negative New_Concepts value. -/
def negativeTable : RawTable :=
  ⟨3, [numRow 1 5 5, numRow 2 3 (-2)]⟩

/-- A table whose single New_Concepts value is the non-integer 0.3. -/
def fractionalTable : RawTable :=
  ⟨3, [numRow 1 1 (3 / 10)]⟩

/-- Two rows with the same Interview_Number but different New_Concepts,
in one order. -/
def tiedTableA : RawTable :=
  ⟨3, [numRow 1 0 5, numRow 1 0 3]⟩

/-- The same two tied rows in the other order. -/
def tiedTableB : RawTable :=
  ⟨3, [numRow 1 0 3, numRow 1 0 5]⟩

/-- A five-column table whose single row has numeric bound cells and
junk in the two unbound columns. -/
def extraColTable : RawTable :=
  ⟨5, [[Cell.num 1, Cell.num 2, Cell.num 3, Cell.text "junk", Cell.empty]]⟩

theorem getLast?_cons_ne {α : Type} (a : α) {l : List α} (h : l ≠ []) :
    (a :: l).getLast? = l.getLast? := by
  cases l with
  | nil => exact absurd rfl h
  | cons b m => exact List.getLast?_cons_cons

theorem cumsumAux_getLast (l : List ℚ) :
    ∀ acc : ℚ, l ≠ [] → (cumsumAux acc l).getLast? = some (acc + l.sum) := by
  induction l with
  | nil => intro acc h; exact absurd rfl h
  | cons x xs ih =>
    intro acc _
    cases xs with
    | nil => simp [cumsumAux]
    | cons y ys =>
      have hne : cumsumAux (acc + x) (y :: ys) ≠ [] := by
        simp [cumsumAux]
      rw [show cumsumAux acc (x :: y :: ys)
            = (acc + x) :: cumsumAux (acc + x) (y :: ys) from rfl]
      rw [getLast?_cons_ne _ hne, ih (acc + x) (by simp)]
      congr 1
      simp [add_assoc]

theorem cumsum_getLast {l : List ℚ} (h : l ≠ []) :
    (cumsum l).getLast? = some l.sum := by
  rw [cumsum, cumsumAux_getLast l 0 h, zero_add]

theorem cumsumAux_head (acc : ℚ) (l : List ℚ) :
    (cumsumAux acc l).head? = l.head?.map (fun x => acc + x) := by
  cases l <;> rfl

theorem cumsumAux_chain (l : List ℚ) :
    ∀ acc : ℚ, (∀ x ∈ l, 0 ≤ x) →
      List.Chain' (fun a b : ℚ => a ≤ b) (cumsumAux acc l) := by
  induction l with
  | nil => intro acc _; exact List.chain'_nil
  | cons x xs ih =>
    intro acc h
    rw [show cumsumAux acc (x :: xs) = (acc + x) :: cumsumAux (acc + x) xs from rfl,
      List.chain'_cons']
    constructor
    · intro y hy
      rw [cumsumAux_head] at hy
      simp only [Option.mem_def, Option.map_eq_some'] at hy
      obtain ⟨z, hz, rfl⟩ := hy
      have hz0 : 0 ≤ z :=
        h z (List.mem_cons_of_mem _ (List.mem_of_mem_head? (Option.mem_def.mpr hz)))
      linarith
    · exact ih (acc + x) (fun z hz => h z (List.mem_cons_of_mem _ hz))

theorem sortedRows_perm (t : RawTable) : (sortedRows t).Perm (keptRows t) :=
  List.perm_insertionSort rowLE (keptRows t)

theorem sortedRows_sorted (t : RawTable) : List.Sorted rowLE (sortedRows t) :=
  List.sorted_insertionSort rowLE (keptRows t)

theorem keptRows_perm {t₁ t₂ : RawTable} (h : t₁.rows.Perm t₂.rows) :
    (keptRows t₁).Perm (keptRows t₂) :=
  (((h.map coerceRowCells).filter keepRow).map toRow)

theorem sorted_lt_of_sorted_le_nodup {l : List Row} (hs : List.Sorted rowLE l)
    (hn : (l.map Row.interviewNumber).Nodup) : List.Sorted rowLT l := by
  have hne : l.Pairwise (fun a b => a.interviewNumber ≠ b.interviewNumber) := by
    rwa [List.Nodup, List.pairwise_map] at hn
  exact (hs.and hne).imp (fun hab => lt_of_le_of_ne hab.1 hab.2)

theorem sorted_unique_of_nodup_keys {l₁ l₂ : List Row} (hp : l₁.Perm l₂)
    (hs₁ : List.Sorted rowLE l₁) (hs₂ : List.Sorted rowLE l₂)
    (hn : (l₁.map Row.interviewNumber).Nodup) : l₁ = l₂ := by
  have hn₂ : (l₂.map Row.interviewNumber).Nodup := ((hp.map _).nodup_iff).mp hn
  exact List.eq_of_perm_of_sorted (r := rowLT) hp
    (sorted_lt_of_sorted_le_nodup hs₁ hn) (sorted_lt_of_sorted_le_nodup hs₂ hn₂)

theorem isNum_toNumericCell (c : Cell) :
    (toNumericCell c).isNum = c.toNumeric.isSome := by
  cases c <;> rfl

theorem keepRow_coerceRowCells (r : List Cell) :
    keepRow (coerceRowCells r) = rowCoercible r := by
  show ((toNumericCell (getCell r 0)).isNum && (toNumericCell (getCell r 1)).isNum
      && (toNumericCell (getCell r 2)).isNum) = rowCoercible r
  rw [isNum_toNumericCell, isNum_toNumericCell, isNum_toNumericCell]
  rfl

theorem dropna_coerceTable (rows : List (List Cell)) :
    dropna (coerceTable rows) = (rows.filter rowCoercible).map coerceRowCells := by
  induction rows with
  | nil => rfl
  | cons r rs ih =>
    show List.filter keepRow (coerceRowCells r :: coerceTable rs)
        = ((r :: rs).filter rowCoercible).map coerceRowCells
    rw [List.filter_cons, List.filter_cons, keepRow_coerceRowCells]
    cases hc : rowCoercible r with
    | false => simpa using ih
    | true => simpa using ih

theorem keptRows_eq_filter (t : RawTable) :
    keptRows t = (t.rows.filter rowCoercible).map (fun r => toRow (coerceRowCells r)) := by
  show (dropna (coerceTable t.rows)).map toRow = _
  rw [dropna_coerceTable, List.map_map]
  rfl

theorem renderFromSorted_head (l : List Row) :
    (renderFromSorted l).head?
      = some (RenderItem.dataframe (previewRows l (cumsum (l.map Row.newConcepts)))) := by
  unfold renderFromSorted
  split <;> rfl

theorem renderFromSorted_of_last {l : List Row} {s : ℚ}
    (h : (cumsum (l.map Row.newConcepts)).getLast? = some s) :
    renderFromSorted l =
      [RenderItem.dataframe (previewRows l (cumsum (l.map Row.newConcepts))),
       RenderItem.chart (l.map Row.interviewNumber) (cumsum (l.map Row.newConcepts))
         (l.map Row.conceptsCollected),
       RenderItem.metric "Total Interviews" (MetricVal.count l.length),
       RenderItem.metric "Total Unique Concepts" (MetricVal.intVal (truncInt s)),
       RenderItem.metric "Avg Concepts/Interview"
         (MetricVal.oneDec (listMean (l.map Row.conceptsCollected))),
       RenderItem.metric "Avg New Concepts/Interview"
         (MetricVal.oneDec (listMean (l.map Row.newConcepts)))] := by
  unfold renderFromSorted
  split
  · next last hl =>
      rw [h] at hl
      injection hl with hl
      rw [hl]
  · next hl =>
      rw [h] at hl
      exact absurd hl (by simp)

theorem truncInt_intCast (z : ℤ) : truncInt (z : ℚ) = z := by
  unfold truncInt
  rw [Rat.num_intCast, Rat.den_intCast]
  exact Int.tdiv_one z

theorem exists_int_sum (l : List ℚ) (h : ∀ x ∈ l, ∃ z : ℤ, x = (z : ℚ)) :
    ∃ z : ℤ, l.sum = (z : ℚ) := by
  induction l with
  | nil => exact ⟨0, by simp⟩
  | cons x xs ih =>
    obtain ⟨z, hz⟩ := h x (List.mem_cons_self _ _)
    obtain ⟨w, hw⟩ := ih (fun y hy => h y (List.mem_cons_of_mem _ hy))
    exact ⟨z + w, by rw [List.sum_cons, hz, hw]; push_cast; ring⟩

/-- C1: on the input rows (1,10,10), (2,15,8), (3,12,5), (4,18,10),
(5,14,6), the pipeline produces the cumulative column 10, 18, 23, 33,
39 and the summary statistics total_interviews = 5, total_unique_items
= 39, avg_items_per_interview = 13.8, avg_new_items_per_interview =
7.8. -/
theorem c1_example_scenario :
    cumulativeColumn exampleTable = [10, 18, 23, 33, 39] ∧
    processTable exampleTable =
      [RenderItem.dataframe
         [(1, 10, 10, 10), (2, 15, 8, 18), (3, 12, 5, 23), (4, 18, 10, 33), (5, 14, 6, 39)],
       RenderItem.chart [1, 2, 3, 4, 5] [10, 18, 23, 33, 39] [10, 15, 12, 18, 14],
       RenderItem.metric "Total Interviews" (MetricVal.count 5),
       RenderItem.metric "Total Unique Concepts" (MetricVal.intVal 39),
       RenderItem.metric "Avg Concepts/Interview" (MetricVal.oneDec 13.8),
       RenderItem.metric "Avg New Concepts/Interview" (MetricVal.oneDec 7.8)] := by
  constructor
  · with_unfolding_all decide
  · with_unfolding_all decide

/-- C2 counterexample: two valid tables holding the same rows in
permuted order, with a tie on interview_number, produce different final
outputs, so the claim fails as stated for an input with tied keys. -/
theorem c2_counterexample :
    tiedTableA.ncols = tiedTableB.ncols ∧
    tiedTableA.rows.Perm tiedTableB.rows ∧
    processTable tiedTableA ≠ processTable tiedTableB := by
  refine ⟨rfl, ?_, by with_unfolding_all decide⟩
  exact List.Perm.swap _ _ _

/-- C2 amended: for inputs whose retained rows have pairwise-distinct
interview_number values, supplying the same rows in any permuted order
yields output identical to the in-order case. -/
theorem c2_permutation_invariance (t₁ t₂ : RawTable)
    (hc : t₁.ncols = t₂.ncols) (hp : t₁.rows.Perm t₂.rows)
    (hn : ((keptRows t₁).map Row.interviewNumber).Nodup) :
    processTable t₁ = processTable t₂ := by
  have hk : (keptRows t₁).Perm (keptRows t₂) := keptRows_perm hp
  have hs : (sortedRows t₁).Perm (sortedRows t₂) :=
    (sortedRows_perm t₁).trans (hk.trans (sortedRows_perm t₂).symm)
  have hn₁ : ((sortedRows t₁).map Row.interviewNumber).Nodup :=
    (((sortedRows_perm t₁).map _).nodup_iff).mpr hn
  have heq : sortedRows t₁ = sortedRows t₂ :=
    sorted_unique_of_nodup_keys hs (sortedRows_sorted t₁) (sortedRows_sorted t₂) hn₁
  unfold processTable
  rw [hc, heq]

/-- C2 witness: the example rows supplied in order 3, 1, 5, 2, 4
produce the same output as in ascending order. -/
theorem c2_permutation_invariance_witness :
    exampleTable.ncols = shuffledTable.ncols ∧
    exampleTable.rows.Perm shuffledTable.rows ∧
    ((keptRows exampleTable).map Row.interviewNumber).Nodup ∧
    processTable exampleTable = processTable shuffledTable :=
  ⟨rfl, by with_unfolding_all decide, by with_unfolding_all decide,
    c2_permutation_invariance exampleTable shuffledTable rfl (by with_unfolding_all decide)
      (by with_unfolding_all decide)⟩

/-- C3: whenever every retained row has a non-negative new_items value,
the derived cumulative column is non-decreasing in sort order. -/
theorem c3_cumulative_monotone (t : RawTable)
    (h : ∀ r ∈ keptRows t, 0 ≤ r.newConcepts) :
    List.Chain' (fun a b : ℚ => a ≤ b) (cumulativeColumn t) := by
  unfold cumulativeColumn cumsum
  apply cumsumAux_chain
  intro x hx
  obtain ⟨r, hr, rfl⟩ := List.mem_map.mp hx
  exact h r ((sortedRows_perm t).mem_iff.mp hr)

/-- C3 witness: the example table has non-negative new_items and a
non-decreasing cumulative column. -/
theorem c3_cumulative_monotone_witness :
    (∀ r ∈ keptRows exampleTable, 0 ≤ r.newConcepts) ∧
    List.Chain' (fun a b : ℚ => a ≤ b) (cumulativeColumn exampleTable) :=
  ⟨by with_unfolding_all decide, c3_cumulative_monotone exampleTable (by with_unfolding_all decide)⟩

/-- C4 counterexample: one retained row with new_items = 0.3 makes the
reported total 0, which differs from the sum of new_items (0.3), so the
exact-sum part of the claim fails for non-integer values. -/
theorem c4_counterexample :
    totalUniqueConcepts fractionalTable = some 0 ∧
    ((keptRows fractionalTable).map Row.newConcepts).sum = 3 / 10 ∧
    ((0 : ℤ) : ℚ) ≠ 3 / 10 := by
  refine ⟨by with_unfolding_all decide, by with_unfolding_all decide, by with_unfolding_all decide⟩

/-- C4 amended: with at least one retained row, the reported
total_unique_items equals the sum of new_items over the retained rows
truncated toward zero; it equals the exact sum whenever every retained
new_items value is an integer; and the metric rendered by the pipeline
carries exactly this truncated value. -/
theorem c4_total_is_truncated_sum (t : RawTable) (h : keptRows t ≠ []) :
    totalUniqueConcepts t = some (truncInt (((keptRows t).map Row.newConcepts).sum)) ∧
    ((∀ r ∈ keptRows t, ∃ z : ℤ, r.newConcepts = (z : ℚ)) →
      ((truncInt (((keptRows t).map Row.newConcepts).sum) : ℤ) : ℚ)
        = ((keptRows t).map Row.newConcepts).sum) ∧
    (3 ≤ t.ncols →
      RenderItem.metric "Total Unique Concepts"
          (MetricVal.intVal (truncInt (((keptRows t).map Row.newConcepts).sum)))
        ∈ processTable t) := by
  have hperm : ((sortedRows t).map Row.newConcepts).Perm ((keptRows t).map Row.newConcepts) :=
    (sortedRows_perm t).map _
  have hsum : ((sortedRows t).map Row.newConcepts).sum
      = ((keptRows t).map Row.newConcepts).sum := hperm.sum_eq
  have hne : (sortedRows t).map Row.newConcepts ≠ [] := by
    intro h0
    apply h
    have h1 : sortedRows t = [] := List.map_eq_nil_iff.mp h0
    have h2 : (keptRows t).length = 0 := by
      rw [← (sortedRows_perm t).length_eq, h1]
      rfl
    exact List.eq_nil_of_length_eq_zero h2
  have hlast : (cumsum ((sortedRows t).map Row.newConcepts)).getLast?
      = some (((keptRows t).map Row.newConcepts).sum) := by
    rw [cumsum_getLast hne, hsum]
  refine ⟨?_, ?_, ?_⟩
  · unfold totalUniqueConcepts cumulativeColumn
    rw [hlast]
    rfl
  · intro hint
    obtain ⟨z, hz⟩ := exists_int_sum _ (fun x hx => by
      obtain ⟨r, hr, rfl⟩ := List.mem_map.mp hx
      exact hint r hr)
    rw [hz, truncInt_intCast]
  · intro hc
    unfold processTable
    rw [if_neg (by omega), renderFromSorted_of_last hlast]
    exact List.mem_cons_of_mem _ (List.mem_cons_of_mem _
      (List.mem_cons_of_mem _ (List.mem_cons_self _ _)))

/-- C4 witness: instantiation of the amended statement on the example
table, where the truncated sum is 39. -/
theorem c4_total_is_truncated_sum_witness :
    keptRows exampleTable ≠ [] ∧
    (totalUniqueConcepts exampleTable
        = some (truncInt (((keptRows exampleTable).map Row.newConcepts).sum)) ∧
      ((∀ r ∈ keptRows exampleTable, ∃ z : ℤ, r.newConcepts = (z : ℚ)) →
        ((truncInt (((keptRows exampleTable).map Row.newConcepts).sum) : ℤ) : ℚ)
          = ((keptRows exampleTable).map Row.newConcepts).sum) ∧
      (3 ≤ exampleTable.ncols →
        RenderItem.metric "Total Unique Concepts"
            (MetricVal.intVal (truncInt (((keptRows exampleTable).map Row.newConcepts).sum)))
          ∈ processTable exampleTable)) :=
  ⟨by with_unfolding_all decide, c4_total_is_truncated_sum exampleTable (by with_unfolding_all decide)⟩

/-- C5: an input table with fewer than 3 columns is rejected with the
column-count error message and nothing else is rendered, so no row
processing output is produced. -/
theorem c5_structural_gate (t : RawTable) (h : t.ncols < 3) :
    processTable t = [RenderItem.error columnCountMsg] := by
  unfold processTable
  rw [if_pos h]

/-- C5 witness: a two-column table is rejected with only the
column-count error. -/
theorem c5_structural_gate_witness :
    twoColTable.ncols < 3 ∧ processTable twoColTable = [RenderItem.error columnCountMsg] :=
  ⟨by decide, c5_structural_gate twoColTable (by decide)⟩

/-- C6 counterexample: on a table whose only row fails coercion, the
rendered output contains the processing error and the usage hint, but
also the (empty) preview dataframe, the chart and the Total Interviews
metric, so partial output is shown alongside the error. -/
theorem c6_counterexample :
    RenderItem.error (processingMsg indexErrorMsg) ∈ processTable degenerateTable ∧
    RenderItem.info usageHint ∈ processTable degenerateTable ∧
    RenderItem.dataframe [] ∈ processTable degenerateTable ∧
    RenderItem.chart [] [] [] ∈ processTable degenerateTable ∧
    RenderItem.metric "Total Interviews" (MetricVal.count 0) ∈ processTable degenerateTable := by
  have h : processTable degenerateTable =
      [RenderItem.dataframe [],
       RenderItem.chart [] [] [],
       RenderItem.metric "Total Interviews" (MetricVal.count 0),
       RenderItem.error (processingMsg indexErrorMsg),
       RenderItem.info usageHint] := by
    with_unfolding_all rfl
  refine ⟨?_, ?_, ?_, ?_, ?_⟩ <;> rw [h]
  · exact List.mem_cons_of_mem _ (List.mem_cons_of_mem _
      (List.mem_cons_of_mem _ (List.mem_cons_self _ _)))
  · exact List.mem_cons_of_mem _ (List.mem_cons_of_mem _ (List.mem_cons_of_mem _
      (List.mem_cons_of_mem _ (List.mem_cons_self _ _))))
  · exact List.mem_cons_self _ _
  · exact List.mem_cons_of_mem _ (List.mem_cons_self _ _)
  · exact List.mem_cons_of_mem _ (List.mem_cons_of_mem _ (List.mem_cons_self _ _))

/-- C6 amended: when no rows survive filtering, the failure is caught
and converted into a single error message plus the static usage hint,
but the output rendered before the failing statistic (empty preview,
empty chart, Total Interviews metric) remains alongside the error. -/
theorem c6_failure_rendering (t : RawTable) (h3 : 3 ≤ t.ncols) (h0 : keptRows t = []) :
    processTable t =
      [RenderItem.dataframe [],
       RenderItem.chart [] [] [],
       RenderItem.metric "Total Interviews" (MetricVal.count 0),
       RenderItem.error (processingMsg indexErrorMsg),
       RenderItem.info usageHint] := by
  have hs : sortedRows t = [] := by
    unfold sortedRows
    rw [h0]
    rfl
  unfold processTable
  rw [if_neg (by omega), hs]
  rfl

/-- C6 witness: instantiation of the amended statement on the table
whose only row fails coercion. -/
theorem c6_failure_rendering_witness :
    3 ≤ degenerateTable.ncols ∧ keptRows degenerateTable = [] ∧
    processTable degenerateTable =
      [RenderItem.dataframe [],
       RenderItem.chart [] [] [],
       RenderItem.metric "Total Interviews" (MetricVal.count 0),
       RenderItem.error (processingMsg indexErrorMsg),
       RenderItem.info usageHint] :=
  ⟨by decide, by with_unfolding_all decide,
    c6_failure_rendering degenerateTable (by decide) (by with_unfolding_all decide)⟩

/-- C8: for a table with at least 3 columns, coercion of the three
bound columns is total and never fails the pipeline - the retained rows
are exactly the rows whose first three cells coerce to numbers, and the
pipeline always reaches the preview rendering step. -/
theorem c8_coercion_total_and_filtering (t : RawTable) (h : 3 ≤ t.ncols) :
    keptRows t = (t.rows.filter rowCoercible).map (fun r => toRow (coerceRowCells r)) ∧
    ∃ d, (processTable t).head? = some (RenderItem.dataframe d) := by
  refine ⟨keptRows_eq_filter t, ?_⟩
  unfold processTable
  rw [if_neg (by omega)]
  exact ⟨_, renderFromSorted_head _⟩

/-- C8 witness: instantiation on the example table. -/
theorem c8_coercion_total_and_filtering_witness :
    3 ≤ exampleTable.ncols ∧
    (keptRows exampleTable
        = (exampleTable.rows.filter rowCoercible).map (fun r => toRow (coerceRowCells r)) ∧
      ∃ d, (processTable exampleTable).head? = some (RenderItem.dataframe d)) :=
  ⟨by decide, c8_coercion_total_and_filtering exampleTable (by decide)⟩

/-- C9: row retention depends only on the three bound columns - a row
whose first three cells coerce to numbers is coercible whatever its
extra cells hold, and if it occurs in a table it is retained. -/
theorem c9_retention_ignores_extra_columns (a b c : Cell) (rest : List Cell) (t : RawTable)
    (ha : a.toNumeric.isSome) (hb : b.toNumeric.isSome) (hc : c.toNumeric.isSome) :
    rowCoercible (a :: b :: c :: rest) = true ∧
    (3 ≤ t.ncols → (a :: b :: c :: rest) ∈ t.rows →
      toRow (coerceRowCells (a :: b :: c :: rest)) ∈ keptRows t) := by
  have hrc : rowCoercible (a :: b :: c :: rest) = true := by
    show (a.toNumeric.isSome && b.toNumeric.isSome && c.toNumeric.isSome) = true
    rw [ha, hb, hc]
    rfl
  refine ⟨hrc, fun _ hmem => ?_⟩
  rw [keptRows_eq_filter]
  exact List.mem_map_of_mem _ (List.mem_filter.mpr ⟨hmem, hrc⟩)

/-- C9 witness: a five-column row with junk in the two unbound columns
is retained. -/
theorem c9_retention_ignores_extra_columns_witness :
    (Cell.num 1).toNumeric.isSome = true ∧
    (Cell.num 2).toNumeric.isSome = true ∧
    (Cell.num 3).toNumeric.isSome = true ∧
    rowCoercible [Cell.num 1, Cell.num 2, Cell.num 3, Cell.text "junk", Cell.empty] = true ∧
    (3 ≤ extraColTable.ncols →
      [Cell.num 1, Cell.num 2, Cell.num 3, Cell.text "junk", Cell.empty] ∈ extraColTable.rows →
      toRow (coerceRowCells [Cell.num 1, Cell.num 2, Cell.num 3, Cell.text "junk", Cell.empty])
        ∈ keptRows extraColTable) :=
  ⟨rfl, rfl, rfl,
    (c9_retention_ignores_extra_columns (Cell.num 1) (Cell.num 2) (Cell.num 3)
      [Cell.text "junk", Cell.empty] extraColTable rfl rfl rfl).1,
    (c9_retention_ignores_extra_columns (Cell.num 1) (Cell.num 2) (Cell.num 3)
      [Cell.text "junk", Cell.empty] extraColTable rfl rfl rfl).2⟩

/-- C10: a table containing a negative new_items value is processed
successfully with no error rendered, and the cumulative column strictly
decreases at that row (from 5 down to 3). -/
theorem c10_negative_new_items_accepted :
    processTable negativeTable =
      [RenderItem.dataframe [(1, 5, 5, 5), (2, 3, -2, 3)],
       RenderItem.chart [1, 2] [5, 3] [5, 3],
       RenderItem.metric "Total Interviews" (MetricVal.count 2),
       RenderItem.metric "Total Unique Concepts" (MetricVal.intVal 3),
       RenderItem.metric "Avg Concepts/Interview" (MetricVal.oneDec 4),
       RenderItem.metric "Avg New Concepts/Interview" (MetricVal.oneDec (3 / 2))] ∧
    cumulativeColumn negativeTable = [5, 3] ∧
    (3 : ℚ) < 5 := by
  refine ⟨by with_unfolding_all decide, by with_unfolding_all decide, by with_unfolding_all decide⟩

end SaturationApp
